import Mathlib

/-!
Shallow embedding of the ucs-mds-zoning-bridge repository.

The embedding covers:
* `mds_client_class.py` (`MdsClient`): the command strings built by
  `activate_zoneset`, `add_device_alias`, `add_zone_to_zoneset`,
  `configure_zone_and_add_member`, the outcome classification of
  `post_request`, and the payload-template state threaded through
  `post_request`.
* `zone_bridge_client_class.py` (`ZoneBridgeClient`): the standalone
  operations `activate_zonesets` and `add_zones_to_zonesets`, the
  per-adapter loop of `configure_intersight_mds_zones`, and its
  add-zones-to-zonesets / activate-zonesets stages.

Runs are modelled as traces of method calls on the two fabric clients,
together with an optional abnormal halt (`sys.exit` or an uncaught
Python `KeyError`).
-/

namespace ZoneBridge

/-- Python truthiness of an optional string argument: `None` and the empty
string are falsy, every other string is truthy. -/
def pyTruthy : Option String → Bool
  | none => false
  | some s => !(s == "")

/-- The two SAN fabrics; `mds_client_a` serves `A` and `mds_client_b`
serves `B`. -/
inductive Fabric where
  | A
  | B
deriving DecidableEq, Repr

/-- An abnormal termination of the run: `exited c` models `sys.exit(c)`,
`keyError k` models an uncaught Python `KeyError` on dictionary key `k`. -/
inductive Halt where
  | exited (code : Nat)
  | keyError (key : String)
deriving DecidableEq, Repr

/-- A vHBA record as built by
`IntersightClient.fetch_vhba_from_server_profile_moid`: a dictionary with
exactly the keys `vhba_wwpn`, `vhba_name`, `vhba_fabric`. -/
structure Vhba where
  vhba_wwpn : String
  vhba_name : String
  vhba_fabric : String
deriving DecidableEq, Repr

/-- Python dictionary lookup on a vHBA record. The records carry exactly
the three `vhba_*` keys, so any other key yields `none` (a `KeyError` at
the call site). -/
def Vhba.get (v : Vhba) (key : String) : Option String :=
  if key = "vhba_wwpn" then some v.vhba_wwpn
  else if key = "vhba_name" then some v.vhba_name
  else if key = "vhba_fabric" then some v.vhba_fabric
  else none

/-! ### MdsClient: command strings -/

/-- Command built by `MdsClient.activate_zoneset`. -/
def activate_zoneset_cmd (zoneset_name vsan_id : String) : String :=
  "zoneset activate name " ++ zoneset_name ++ " vsan " ++ vsan_id

/-- Command built by `MdsClient.add_device_alias`. -/
def add_device_alias_cmd (device_alias_name wwpn : String) : String :=
  "device-alias database ;device-alias name " ++ device_alias_name ++
    " pwwn " ++ wwpn ++ " ;device-alias commit"

/-- Command built by `MdsClient.add_zone_to_zoneset`. -/
def add_zone_to_zoneset_cmd (zone_name zoneset_name vsan_id : String) : String :=
  "zoneset name " ++ zoneset_name ++ " vsan " ++ vsan_id ++ " ;member " ++ zone_name

/-- Zone-member command using a device alias, as built by
`MdsClient.configure_zone_and_add_member` when a device alias is given. -/
def member_device_alias_cmd (zone_name vsan_id device_alias_name : String) : String :=
  "zone name " ++ zone_name ++ " vsan " ++ vsan_id ++
    " ;member device-alias " ++ device_alias_name

/-- Zone-member command using the raw WWPN, as built by
`MdsClient.configure_zone_and_add_member` when no device alias is given. -/
def member_pwwn_cmd (zone_name vsan_id wwpn : String) : String :=
  "zone name " ++ zone_name ++ " vsan " ++ vsan_id ++ " ;member pwwn " ++ wwpn

/-- `MdsClient.configure_zone_and_add_member`: validates that at least one
of `wwpn` / `device_alias_name` is truthy (otherwise `sys.exit(1)` before
any transport call), prefers the device alias when truthy, and otherwise
falls back to the WWPN. Returns the command string it would post. -/
def configure_zone_and_add_member_cmd (zone_name vsan_id : String)
    (wwpn device_alias_name : Option String) : Except Halt String :=
  if !pyTruthy wwpn && !pyTruthy device_alias_name then
    Except.error (Halt.exited 1)
  else if pyTruthy device_alias_name then
    Except.ok (member_device_alias_cmd zone_name vsan_id (device_alias_name.getD ""))
  else
    Except.ok (member_pwwn_cmd zone_name vsan_id (wwpn.getD ""))

/-! ### MdsClient: post_request outcome classification -/

/-- The parts of an HTTP response that `MdsClient.post_request` inspects:
the HTTP status code, and the `code` field of
`response.json()["ins_api"]["outputs"]["output"]` when present. -/
structure HttpResponse where
  status_code : Nat
  body_code : Option String
deriving DecidableEq, Repr

/-- Outcome of a `post_request` call: either the process exits
(`sys.exit(1)`), or the response object is returned to the caller,
with a flag recording whether a CLI-level error was logged. -/
inductive PostOutcome where
  | exited (code : Nat)
  | returned (cli_error_logged : Bool)
deriving DecidableEq, Repr

/-- Outcome classification of `MdsClient.post_request`: a status code of
exactly `200` is treated as success; any other status code logs an error
and calls `sys.exit(1)`. On success, a `code` field in the body different
from `"200"` is logged as an error, and the response is returned either
way. -/
def post_request_outcome (response : HttpResponse) : PostOutcome :=
  if response.status_code = 200 then
    match response.body_code with
    | some c => PostOutcome.returned (c != "200")
    | none => PostOutcome.returned false
  else
    PostOutcome.exited 1

/-! ### MdsClient: the payload template threaded through post_request -/

/-- The `ins_api` payload dictionary set up in `MdsClient.__init__`. -/
structure ApiPayload where
  version : String
  type : String
  chunk : String
  sid : String
  input : String
  output_format : String
deriving DecidableEq, Repr

/-- The payload template as initialized by `MdsClient.__init__`. -/
def init_api_payload : ApiPayload :=
  { version := "1.0", type := "", chunk := "0", sid := "1",
    input := "", output_format := "json" }

/-- `MdsClient.post_request` binds `payload = self.api_payload` (an alias,
not a copy) and assigns its `input` and `type` fields before sending.
The result is therefore both the envelope sent on the wire and the value
of `self.api_payload` after the call. -/
def post_request_payload (api_payload : ApiPayload)
    (request_input request_type : String) : ApiPayload :=
  { api_payload with input := request_input, type := request_type }

/-- The stored payload template after a sequence of `post_request` calls,
each given by its `(request_input, request_type)` pair. -/
def run_requests (api_payload : ApiPayload) : List (String × String) → ApiPayload
  | [] => api_payload
  | (i, t) :: rest => run_requests (post_request_payload api_payload i t) rest

/-! ### ZoneBridgeClient: traces of fabric-client calls -/

/-- A call to one of the mutating `MdsClient` methods. -/
inductive MdsCall where
  | activate_zoneset (zoneset_name vsan_id : String)
  | add_device_alias (device_alias_name wwpn : String)
  | add_zone_to_zoneset (zone_name zoneset_name vsan_id : String)
  | configure_zone_and_add_member (zone_name vsan_id : String)
      (wwpn device_alias_name : Option String)
deriving DecidableEq, Repr

/-- One event of a run: an `MdsClient` method call dispatched to the
client of fabric `fab`. -/
structure Event where
  fab : Fabric
  call : MdsCall
deriving DecidableEq, Repr

/-- The command string a call would post, or the halt it raises before
posting (only `configure_zone_and_add_member` can halt). -/
def eventCommand : MdsCall → Except Halt String
  | MdsCall.activate_zoneset zs v => Except.ok (activate_zoneset_cmd zs v)
  | MdsCall.add_device_alias a w => Except.ok (add_device_alias_cmd a w)
  | MdsCall.add_zone_to_zoneset zn zs v => Except.ok (add_zone_to_zoneset_cmd zn zs v)
  | MdsCall.configure_zone_and_add_member zn v w d =>
      configure_zone_and_add_member_cmd zn v w d

/-- Whether an event is an add-zone-to-zoneset call. -/
def isAddZoneCall (e : Event) : Bool :=
  match e.call with
  | MdsCall.add_zone_to_zoneset _ _ _ => true
  | _ => false

/-- Whether an event is a zoneset-activation call. -/
def isActivateCall (e : Event) : Bool :=
  match e.call with
  | MdsCall.activate_zoneset _ _ => true
  | _ => false

/-- Whether an event is a device-alias creation call. -/
def isAliasCall (e : Event) : Bool :=
  match e.call with
  | MdsCall.add_device_alias _ _ => true
  | _ => false

/-! ### ZoneBridgeClient: standalone operations -/

/-- `ZoneBridgeClient.activate_zonesets`: activates the zoneset on the
Fabric A client, then on the Fabric B client. -/
def activate_zonesets (zoneset_name_a vsan_id_a zoneset_name_b vsan_id_b : String) :
    List Event :=
  [⟨Fabric.A, MdsCall.activate_zoneset zoneset_name_a vsan_id_a⟩,
   ⟨Fabric.B, MdsCall.activate_zoneset zoneset_name_b vsan_id_b⟩]

/-- `ZoneBridgeClient.add_zones_to_zonesets`: adds the zone to the zoneset
on the Fabric A client, then on the Fabric B client. -/
def add_zones_to_zonesets (zoneset_name_a zone_name_a vsan_id_a
    zoneset_name_b zone_name_b vsan_id_b : String) : List Event :=
  [⟨Fabric.A, MdsCall.add_zone_to_zoneset zone_name_a zoneset_name_a vsan_id_a⟩,
   ⟨Fabric.B, MdsCall.add_zone_to_zoneset zone_name_b zoneset_name_b vsan_id_b⟩]

/-! ### ZoneBridgeClient: the full workflow -/

/-- The arguments of `ZoneBridgeClient.configure_intersight_mds_zones`
that drive command construction (the organization name only feeds the
Intersight lookups). `zoneset_name_a` and `zoneset_name_b` default to
`None` in the source, hence `Option String`. -/
structure ZoningIntent where
  server_profile_name : String
  zone_name_a : String
  vsan_id_a : String
  zone_name_b : String
  vsan_id_b : String
  zoneset_name_a : Option String
  zoneset_name_b : Option String
  flag_configure_device_aliases : Bool
  flag_add_zones_to_zonesets : Bool
  flag_activate_zonesets : Bool
deriving DecidableEq, Repr

/-- The device-alias string built in the loop bodies of
`configure_intersight_mds_zones` and
`add_device_aliases_from_server_profile_name_and_vhba`:
the f-string `{server_profile_name}-{vhba_fabric}-{vhba_name}`. -/
def device_alias_of (server_profile_name vhba_fabric vhba_name : String) : String :=
  server_profile_name ++ "-" ++ vhba_fabric ++ "-" ++ vhba_name

/-- The halt produced by the `else` (unknown fabric) branches: the
`logger.error` call there reads `vhba["fabric"]` first and `vhba["name"]`
second, so a missing key raises `KeyError` before `sys.exit(1)` runs. -/
def unknown_fabric_halt (v : Vhba) : Halt :=
  match v.get "fabric" with
  | none => Halt.keyError "fabric"
  | some _ =>
    match v.get "name" with
    | none => Halt.keyError "name"
    | some _ => Halt.exited 1

/-- The second half of the loop body of `configure_intersight_mds_zones`:
dispatches `configure_zone_and_add_member` on the client matching
`vhba_fabric`, with that fabric's zone name and VSAN id; an unknown
fabric hits the faulty `else` branch. `acc` is the trace produced by the
first half of the iteration. -/
def memberDispatch (intent : ZoningIntent) (v : Vhba)
    (device_alias_name : Option String) (acc : List Event) :
    List Event × Option Halt :=
  if v.vhba_fabric = "A" then
    (acc ++ [⟨Fabric.A, MdsCall.configure_zone_and_add_member
        intent.zone_name_a intent.vsan_id_a (some v.vhba_wwpn) device_alias_name⟩],
     match configure_zone_and_add_member_cmd intent.zone_name_a intent.vsan_id_a
        (some v.vhba_wwpn) device_alias_name with
     | Except.ok _ => none
     | Except.error h => some h)
  else if v.vhba_fabric = "B" then
    (acc ++ [⟨Fabric.B, MdsCall.configure_zone_and_add_member
        intent.zone_name_b intent.vsan_id_b (some v.vhba_wwpn) device_alias_name⟩],
     match configure_zone_and_add_member_cmd intent.zone_name_b intent.vsan_id_b
        (some v.vhba_wwpn) device_alias_name with
     | Except.ok _ => none
     | Except.error h => some h)
  else
    (acc, some (unknown_fabric_halt v))

/-- One iteration of the per-adapter loop of
`configure_intersight_mds_zones`: when the device-alias flag is set,
compute the alias and create it on the client matching `vhba_fabric`
(unknown fabric: faulty `else` branch), then dispatch the zone-member
call; when the flag is unset, skip alias creation and dispatch the
zone-member call with `device_alias_name = None`. -/
def perAdapterEvents (intent : ZoningIntent) (v : Vhba) : List Event × Option Halt :=
  if intent.flag_configure_device_aliases then
    if v.vhba_fabric = "A" then
      memberDispatch intent v
        (some (device_alias_of intent.server_profile_name v.vhba_fabric v.vhba_name))
        [⟨Fabric.A, MdsCall.add_device_alias
            (device_alias_of intent.server_profile_name v.vhba_fabric v.vhba_name)
            v.vhba_wwpn⟩]
    else if v.vhba_fabric = "B" then
      memberDispatch intent v
        (some (device_alias_of intent.server_profile_name v.vhba_fabric v.vhba_name))
        [⟨Fabric.B, MdsCall.add_device_alias
            (device_alias_of intent.server_profile_name v.vhba_fabric v.vhba_name)
            v.vhba_wwpn⟩]
    else
      ([], some (unknown_fabric_halt v))
  else
    memberDispatch intent v none []

/-- The per-adapter loop of `configure_intersight_mds_zones`, processing
the records in list order and stopping at the first halt. -/
def runAdapterLoop (intent : ZoningIntent) : List Vhba → List Event × Option Halt
  | [] => ([], none)
  | v :: rest =>
    let r := perAdapterEvents intent v
    if r.2.isSome then r
    else
      let r2 := runAdapterLoop intent rest
      (r.1 ++ r2.1, r2.2)

/-- The add-zones-to-zonesets stage of `configure_intersight_mds_zones`:
skipped when the flag is unset; otherwise `sys.exit(1)` when either
zoneset name is `None`, else one `add_zone_to_zoneset` per fabric,
A first. -/
def add_zones_stage (intent : ZoningIntent) : List Event × Option Halt :=
  if intent.flag_add_zones_to_zonesets then
    if intent.zoneset_name_a.isNone || intent.zoneset_name_b.isNone then
      ([], some (Halt.exited 1))
    else
      ([⟨Fabric.A, MdsCall.add_zone_to_zoneset intent.zone_name_a
            (intent.zoneset_name_a.getD "") intent.vsan_id_a⟩,
        ⟨Fabric.B, MdsCall.add_zone_to_zoneset intent.zone_name_b
            (intent.zoneset_name_b.getD "") intent.vsan_id_b⟩], none)
  else
    ([], none)

/-- The activate-zonesets stage of `configure_intersight_mds_zones`:
skipped when the flag is unset; otherwise `sys.exit(1)` when either
zoneset name is `None`, else one `activate_zoneset` per fabric, A first. -/
def activate_stage (intent : ZoningIntent) : List Event × Option Halt :=
  if intent.flag_activate_zonesets then
    if intent.zoneset_name_a.isNone || intent.zoneset_name_b.isNone then
      ([], some (Halt.exited 1))
    else
      ([⟨Fabric.A, MdsCall.activate_zoneset
            (intent.zoneset_name_a.getD "") intent.vsan_id_a⟩,
        ⟨Fabric.B, MdsCall.activate_zoneset
            (intent.zoneset_name_b.getD "") intent.vsan_id_b⟩], none)
  else
    ([], none)

/-- `ZoneBridgeClient.configure_intersight_mds_zones` after the Intersight
lookups: the per-adapter loop, then the add-zones-to-zonesets stage, then
the activate-zonesets stage, each later part running only if the earlier
parts did not halt. -/
def configure_intersight_mds_zones (intent : ZoningIntent)
    (vhbas_list : List Vhba) : List Event × Option Halt :=
  let r1 := runAdapterLoop intent vhbas_list
  if r1.2.isSome then r1
  else
    let r2 := add_zones_stage intent
    if r2.2.isSome then (r1.1 ++ r2.1, r2.2)
    else
      let r3 := activate_stage intent
      (r1.1 ++ r2.1 ++ r3.1, r3.2)

/-- `ZoneBridgeClient.add_device_aliases_from_server_profile_name_and_vhba`:
for each record, build the alias and create it on the client matching
`vhba_fabric`; an unknown fabric hits the faulty `else` branch. -/
def add_device_aliases_from_server_profile_name_and_vhba
    (server_profile_name : String) : List Vhba → List Event × Option Halt
  | [] => ([], none)
  | v :: rest =>
    if v.vhba_fabric = "A" then
      let r := add_device_aliases_from_server_profile_name_and_vhba
        server_profile_name rest
      (⟨Fabric.A, MdsCall.add_device_alias
          (device_alias_of server_profile_name v.vhba_fabric v.vhba_name)
          v.vhba_wwpn⟩ :: r.1, r.2)
    else if v.vhba_fabric = "B" then
      let r := add_device_aliases_from_server_profile_name_and_vhba
        server_profile_name rest
      (⟨Fabric.B, MdsCall.add_device_alias
          (device_alias_of server_profile_name v.vhba_fabric v.vhba_name)
          v.vhba_wwpn⟩ :: r.1, r.2)
    else
      ([], some (unknown_fabric_halt v))

/-- A list of fabrics in per-stage dispatch order: empty, only A, or A
then B; fabric B never appears before fabric A. -/
def fabricsInOrder (l : List Fabric) : Prop :=
  l = [] ∨ l = [Fabric.A] ∨ l = [Fabric.A, Fabric.B]

/-! ### Concrete example values (used by witnesses and counterexamples) -/

/-- A concrete intent mirroring the end-to-end scenario of the spec. -/
def intentEx : ZoningIntent :=
  { server_profile_name := "srv1", zone_name_a := "zoneA", vsan_id_a := "10",
    zone_name_b := "zoneB", vsan_id_b := "20",
    zoneset_name_a := some "zsA", zoneset_name_b := some "zsB",
    flag_configure_device_aliases := true,
    flag_add_zones_to_zonesets := true,
    flag_activate_zonesets := true }

/-- The example intent with both zoneset names left at their `None`
default. -/
def intentNoZonesets : ZoningIntent :=
  { intentEx with zoneset_name_a := none, zoneset_name_b := none }

/-- The example intent with the device-alias flag cleared. -/
def intentNoAliases : ZoningIntent :=
  { intentEx with flag_configure_device_aliases := false }

/-- A Fabric A adapter record, as in the spec scenario. -/
def vhbaA : Vhba :=
  { vhba_wwpn := "20:00:00:00:00:00:00:01", vhba_name := "vHBA0", vhba_fabric := "A" }

/-- A Fabric B adapter record, as in the spec scenario. -/
def vhbaB : Vhba :=
  { vhba_wwpn := "20:00:00:00:00:00:00:02", vhba_name := "vHBA1", vhba_fabric := "B" }

/-- An adapter record whose fabric tag is outside the recognized set. -/
def vhbaC : Vhba :=
  { vhba_wwpn := "20:00:00:00:00:00:00:03", vhba_name := "vHBA2", vhba_fabric := "C" }

/-! ### General lemmas about the embedding -/

/-- A device-alias string is never empty: it contains at least the two
hyphen separators. -/
lemma device_alias_of_ne_empty (p f n : String) : device_alias_of p f n ≠ "" := by
  unfold device_alias_of
  intro h
  have h2 := congrArg String.data h
  simp [String.data_append] at h2

/-- The fields of the payload template other than `input` and `type` are
never written after `__init__`. -/
lemma run_requests_const_fields (reqs : List (String × String)) (s : ApiPayload) :
    (run_requests s reqs).version = s.version ∧
    (run_requests s reqs).chunk = s.chunk ∧
    (run_requests s reqs).sid = s.sid ∧
    (run_requests s reqs).output_format = s.output_format := by
  induction reqs generalizing s with
  | nil => exact ⟨rfl, rfl, rfl, rfl⟩
  | cons p rest ih =>
    rcases p with ⟨i, t⟩
    simpa [run_requests, post_request_payload] using ih (post_request_payload s i t)

/-- Every event of one loop iteration is an alias creation or a
zone-member configuration call. -/
lemma perAdapter_call_shape (intent : ZoningIntent) (v : Vhba) :
    ∀ e ∈ (perAdapterEvents intent v).1,
      (∃ a w, e.call = MdsCall.add_device_alias a w) ∨
      (∃ zn vs w d, e.call = MdsCall.configure_zone_and_add_member zn vs w d) := by
  intro e he
  unfold perAdapterEvents memberDispatch at he
  split_ifs at he <;> simp at he <;>
    first
    | (rcases he with rfl | rfl
       · exact Or.inl ⟨_, _, rfl⟩
       · exact Or.inr ⟨_, _, _, _, rfl⟩)
    | (rcases he with rfl; exact Or.inr ⟨_, _, _, _, rfl⟩)

/-- Every event of the per-adapter loop is an alias creation or a
zone-member configuration call. -/
lemma runLoop_call_shape (intent : ZoningIntent) (l : List Vhba) :
    ∀ e ∈ (runAdapterLoop intent l).1,
      (∃ a w, e.call = MdsCall.add_device_alias a w) ∨
      (∃ zn vs w d, e.call = MdsCall.configure_zone_and_add_member zn vs w d) := by
  induction l with
  | nil => simp [runAdapterLoop]
  | cons v rest ih =>
    intro e he
    unfold runAdapterLoop at he
    by_cases hh : (perAdapterEvents intent v).2.isSome
    · simp only [hh, if_true] at he
      exact perAdapter_call_shape intent v e he
    · simp only [hh, Bool.false_eq_true, if_false, List.mem_append] at he
      rcases he with he | he
      · exact perAdapter_call_shape intent v e he
      · exact ih e he

/-- Loop events are never zoneset-stage calls. -/
lemma runLoop_no_stage_calls (intent : ZoningIntent) (l : List Vhba) :
    ∀ e ∈ (runAdapterLoop intent l).1,
      isAddZoneCall e = false ∧ isActivateCall e = false := by
  intro e he
  rcases runLoop_call_shape intent l e he with ⟨a, w, hc⟩ | ⟨zn, vs, w, d, hc⟩ <;>
    simp [isAddZoneCall, isActivateCall, hc]

/-- Every event of the full run comes from the loop or from one of the
two zoneset stages. -/
lemma mem_run_cases (intent : ZoningIntent) (vhbas : List Vhba) (e : Event)
    (he : e ∈ (configure_intersight_mds_zones intent vhbas).1) :
    e ∈ (runAdapterLoop intent vhbas).1 ∨
    e ∈ (add_zones_stage intent).1 ∨
    e ∈ (activate_stage intent).1 := by
  unfold configure_intersight_mds_zones at he
  by_cases h1 : (runAdapterLoop intent vhbas).2.isSome
  · simp only [h1, if_true] at he
    exact Or.inl he
  · by_cases h2 : (add_zones_stage intent).2.isSome
    · simp only [h1, h2, Bool.false_eq_true, if_false, if_true, List.mem_append] at he
      rcases he with he | he
      · exact Or.inl he
      · exact Or.inr (Or.inl he)
    · simp only [h1, h2, Bool.false_eq_true, if_false, List.mem_append] at he
      rcases he with (he | he) | he
      · exact Or.inl he
      · exact Or.inr (Or.inl he)
      · exact Or.inr (Or.inr he)

/-- The add-zones stage emits only `add_zone_to_zoneset` calls. -/
lemma add_zones_stage_shape (intent : ZoningIntent) :
    ∀ e ∈ (add_zones_stage intent).1,
      ∃ zn zs vs, e.call = MdsCall.add_zone_to_zoneset zn zs vs := by
  intro e he
  unfold add_zones_stage at he
  split_ifs at he <;> simp at he
  rcases he with rfl | rfl <;> exact ⟨_, _, _, rfl⟩

/-- The activate stage emits only `activate_zoneset` calls. -/
lemma activate_stage_shape (intent : ZoningIntent) :
    ∀ e ∈ (activate_stage intent).1,
      ∃ zs vs, e.call = MdsCall.activate_zoneset zs vs := by
  intro e he
  unfold activate_stage at he
  split_ifs at he <;> simp at he
  rcases he with rfl | rfl <;> exact ⟨_, _, rfl⟩

/-- A list on which a predicate is everywhere false filters to nil. -/
lemma filter_eq_nil_of_false {α : Type} (p : α → Bool) :
    ∀ l : List α, (∀ e ∈ l, p e = false) → l.filter p = []
  | [], _ => rfl
  | a :: l, h => by
    have ha := h a (List.mem_cons_self a l)
    simp [List.filter, ha,
      filter_eq_nil_of_false p l (fun e he => h e (List.mem_cons_of_mem a he))]

/-- Every event of the per-adapter loop belongs to the iteration of some
record of the list. -/
lemma mem_runLoop (intent : ZoningIntent) (l : List Vhba) (e : Event)
    (he : e ∈ (runAdapterLoop intent l).1) :
    ∃ v ∈ l, e ∈ (perAdapterEvents intent v).1 := by
  induction l with
  | nil => simp [runAdapterLoop] at he
  | cons v rest ih =>
    unfold runAdapterLoop at he
    by_cases hh : (perAdapterEvents intent v).2.isSome
    · simp only [hh, if_true] at he
      exact ⟨v, List.mem_cons_self v rest, he⟩
    · simp only [hh, Bool.false_eq_true, if_false, List.mem_append] at he
      rcases he with he | he
      · exact ⟨v, List.mem_cons_self v rest, he⟩
      · obtain ⟨w, hw, hew⟩ := ih he
        exact ⟨w, List.mem_cons_of_mem v hw, hew⟩

/-- With the alias flag cleared, an iteration emits exactly zone-member
calls carrying the record's WWPN and no device alias. -/
lemma perAdapter_member_flag_false (intent : ZoningIntent) (v : Vhba)
    (hf : intent.flag_configure_device_aliases = false) :
    ∀ e ∈ (perAdapterEvents intent v).1,
      ∃ zn vs, e.call =
        MdsCall.configure_zone_and_add_member zn vs (some v.vhba_wwpn) none := by
  intro e he
  unfold perAdapterEvents memberDispatch at he
  rw [hf] at he
  simp only [Bool.false_eq_true, if_false] at he
  split_ifs at he <;> simp at he <;> (subst he; exact ⟨_, _, rfl⟩)

/-- With the alias flag set, any zone-member call of an iteration
carries the record's WWPN and the computed device alias. -/
lemma perAdapter_member_flag_true (intent : ZoningIntent) (v : Vhba)
    (hf : intent.flag_configure_device_aliases = true) :
    ∀ e ∈ (perAdapterEvents intent v).1, ∀ zn vs w d,
      e.call = MdsCall.configure_zone_and_add_member zn vs w d →
      w = some v.vhba_wwpn ∧
      d = some (device_alias_of intent.server_profile_name v.vhba_fabric v.vhba_name) := by
  intro e he zn vs w d hc
  unfold perAdapterEvents memberDispatch at he
  rw [hf] at he
  simp only [if_true] at he
  split_ifs at he <;> simp at he <;>
    rcases he with rfl | rfl <;>
    simp only [MdsCall.configure_zone_and_add_member.injEq] at hc <;>
    first
    | exact ⟨hc.2.2.1.symm, hc.2.2.2.symm⟩
    | cases hc

/-- With the alias flag cleared, loop iterations never create aliases. -/
lemma perAdapter_no_alias_flag_false (intent : ZoningIntent) (v : Vhba)
    (hf : intent.flag_configure_device_aliases = false) :
    ∀ e ∈ (perAdapterEvents intent v).1, isAliasCall e = false := by
  intro e he
  obtain ⟨zn, vs, hc⟩ := perAdapter_member_flag_false intent v hf e he
  simp [isAliasCall, hc]

/-- Reading a zone-member command built without a device alias: when the
command is sent at all, it is the `member pwwn` form. -/
lemma render_member_pwwn (zn vs wp : String) :
    ∀ s, configure_zone_and_add_member_cmd zn vs (some wp) none = Except.ok s →
      s = member_pwwn_cmd zn vs wp := by
  intro s hs
  unfold configure_zone_and_add_member_cmd at hs
  by_cases hwp : wp = ""
  · simp [pyTruthy, hwp] at hs
  · simp [pyTruthy, hwp] at hs
    exact hs.symm

/-- A zone-member command built with a nonempty device alias is the
`member device-alias` form, even when a WWPN is also supplied. -/
lemma render_member_alias (zn vs wp al : String) (hal : al ≠ "") :
    configure_zone_and_add_member_cmd zn vs (some wp) (some al) =
      Except.ok (member_device_alias_cmd zn vs al) := by
  unfold configure_zone_and_add_member_cmd
  simp [pyTruthy, hal]

/-- The add-zones stage never activates zonesets. -/
lemma add_zones_stage_filter_activate (intent : ZoningIntent) :
    (add_zones_stage intent).1.filter isActivateCall = [] := by
  unfold add_zones_stage
  split_ifs <;> rfl

/-- The add-zones stage never creates aliases. -/
lemma add_zones_stage_filter_alias (intent : ZoningIntent) :
    (add_zones_stage intent).1.filter isAliasCall = [] := by
  unfold add_zones_stage
  split_ifs <;> rfl

/-- The activate stage never adds zones to zonesets. -/
lemma activate_stage_filter_addzone (intent : ZoningIntent) :
    (activate_stage intent).1.filter isAddZoneCall = [] := by
  unfold activate_stage
  split_ifs <;> rfl

/-- The activate stage never creates aliases. -/
lemma activate_stage_filter_alias (intent : ZoningIntent) :
    (activate_stage intent).1.filter isAliasCall = [] := by
  unfold activate_stage
  split_ifs <;> rfl

/-- The add-zone calls of the add-zones stage hit fabric A, then
fabric B. -/
lemma add_zones_stage_order (intent : ZoningIntent) :
    fabricsInOrder
      (((add_zones_stage intent).1.filter isAddZoneCall).map Event.fab) := by
  unfold add_zones_stage
  split_ifs <;> simp [fabricsInOrder, isAddZoneCall]

/-- The activation calls of the activate stage hit fabric A, then
fabric B. -/
lemma activate_stage_order (intent : ZoningIntent) :
    fabricsInOrder
      (((activate_stage intent).1.filter isActivateCall).map Event.fab) := by
  unfold activate_stage
  split_ifs <;> simp [fabricsInOrder, isActivateCall]

/-- The loop part of the run has no zoneset-stage calls at all. -/
lemma runLoop_filter_stage (intent : ZoningIntent) (l : List Vhba) :
    (runAdapterLoop intent l).1.filter isAddZoneCall = [] ∧
    (runAdapterLoop intent l).1.filter isActivateCall = [] :=
  ⟨filter_eq_nil_of_false _ _
     (fun e he => (runLoop_no_stage_calls intent l e he).1),
   filter_eq_nil_of_false _ _
     (fun e he => (runLoop_no_stage_calls intent l e he).2)⟩

/-! ### Claim theorems -/

/-- C2 counterexample: the HTTP status code 201 lies in the 2xx range,
yet `post_request` classifies the response as a fatal transport failure
and exits, even when the body reports the success code. -/
theorem c2_counterexample :
    200 ≤ 201 ∧ 201 < 300 ∧
    post_request_outcome { status_code := 201, body_code := some "200" } =
      PostOutcome.exited 1 := by
  refine ⟨by norm_num, by norm_num, ?_⟩
  rfl

/-- C2 (amended): `post_request` aborts the run exactly when the HTTP
status code differs from 200; only a response with status code exactly
200 escapes the transport-failure classification, so 2xx codes other
than 200 also abort. -/
theorem c2_transport_failure_classification (response : HttpResponse) :
    post_request_outcome response = PostOutcome.exited 1 ↔
      response.status_code ≠ 200 := by
  unfold post_request_outcome
  split_ifs with h
  · rcases response.body_code with _ | c <;> simp [h]
  · simp [h]

/-- C3: an HTTP-successful response whose body carries a `code` field
different from `"200"` has the command-level failure logged, and the
response is still returned to the caller (no `sys.exit`). -/
theorem c3_command_failure_logged_not_fatal (response : HttpResponse) (c : String)
    (h1 : response.status_code = 200) (h2 : response.body_code = some c)
    (h3 : c ≠ "200") :
    post_request_outcome response = PostOutcome.returned true := by
  unfold post_request_outcome
  simp [h1, h2, h3]

/-- C3 witness: a concrete 200 response with embedded error code 400. -/
theorem c3_command_failure_logged_not_fatal_witness :
    ({ status_code := 200, body_code := some "400" } : HttpResponse).status_code = 200 ∧
    ({ status_code := 200, body_code := some "400" } : HttpResponse).body_code = some "400" ∧
    ("400" : String) ≠ "200" ∧
    post_request_outcome { status_code := 200, body_code := some "400" } =
      PostOutcome.returned true :=
  ⟨rfl, rfl, by decide,
   c3_command_failure_logged_not_fatal { status_code := 200, body_code := some "400" }
     "400" rfl rfl (by decide)⟩

/-- C9 counterexample: after a single `post_request` (here the config
request sent by `activate_zoneset`), the stored payload template of the
client differs from the state left by `__init__` — `post_request`
mutates `self.api_payload` in place instead of building a fresh
envelope. -/
theorem c9_counterexample :
    post_request_payload init_api_payload
        (activate_zoneset_cmd "zoneset1" "10") "cli_conf" ≠ init_api_payload := by
  decide

/-- C9 (amended): `post_request` does overwrite the stored template's
`input` and `type` fields in place, but every request overwrites both
fields, so the envelope sent for a request is determined solely by that
request's arguments and the constructor-set constant fields: any history
of earlier requests yields the same wire envelope as a fresh client. -/
theorem c9_envelope_history_independent (reqs : List (String × String))
    (request_input request_type : String) :
    post_request_payload (run_requests init_api_payload reqs)
        request_input request_type =
      post_request_payload init_api_payload request_input request_type := by
  obtain ⟨h1, h2, h3, h4⟩ := run_requests_const_fields reqs init_api_payload
  cases hrr : run_requests init_api_payload reqs with
  | mk v ty ch si inp o =>
    rw [hrr] at h1 h2 h3 h4
    simp [init_api_payload] at h1 h2 h3 h4
    simp [post_request_payload, init_api_payload, h1, h2, h3, h4]

/-- C7: the device alias computed for an adapter is exactly
`{profileName}-{fabricTag}-{adapterName}`; it is a function of those
three inputs only (identical inputs give the identical string, with no
dependency on position or prior calls); and when the alias flag is set
and the fabric tag is recognized, the loop iteration creates exactly
this alias on the adapter's fabric. -/
theorem c7_device_alias_pure (intent : ZoningIntent) (v : Vhba) :
    device_alias_of intent.server_profile_name v.vhba_fabric v.vhba_name =
      intent.server_profile_name ++ "-" ++ v.vhba_fabric ++ "-" ++ v.vhba_name ∧
    (∀ (intent2 : ZoningIntent) (v2 : Vhba),
      intent2.server_profile_name = intent.server_profile_name →
      v2.vhba_fabric = v.vhba_fabric → v2.vhba_name = v.vhba_name →
      device_alias_of intent2.server_profile_name v2.vhba_fabric v2.vhba_name =
        device_alias_of intent.server_profile_name v.vhba_fabric v.vhba_name) ∧
    (intent.flag_configure_device_aliases = true →
      v.vhba_fabric = "A" ∨ v.vhba_fabric = "B" →
      (⟨if v.vhba_fabric = "A" then Fabric.A else Fabric.B,
        MdsCall.add_device_alias
          (device_alias_of intent.server_profile_name v.vhba_fabric v.vhba_name)
          v.vhba_wwpn⟩ : Event) ∈ (perAdapterEvents intent v).1) := by
  refine ⟨rfl, ?_, ?_⟩
  · intro intent2 v2 h1 h2 h3
    rw [device_alias_of, device_alias_of, h1, h2, h3]
  · intro hf hab
    rcases hab with h | h
    · simp [perAdapterEvents, memberDispatch, hf, h]
    · simp [perAdapterEvents, memberDispatch, hf, h]

/-- C7 witness: the spec scenario record on fabric A yields alias
`srv1-A-vHBA0`, created on the fabric A client. -/
theorem c7_device_alias_pure_witness :
    intentEx.flag_configure_device_aliases = true ∧
    (vhbaA.vhba_fabric = "A" ∨ vhbaA.vhba_fabric = "B") ∧
    device_alias_of intentEx.server_profile_name vhbaA.vhba_fabric vhbaA.vhba_name =
      intentEx.server_profile_name ++ "-" ++ vhbaA.vhba_fabric ++ "-" ++ vhbaA.vhba_name ∧
    (⟨if vhbaA.vhba_fabric = "A" then Fabric.A else Fabric.B,
      MdsCall.add_device_alias
        (device_alias_of intentEx.server_profile_name vhbaA.vhba_fabric vhbaA.vhba_name)
        vhbaA.vhba_wwpn⟩ : Event) ∈ (perAdapterEvents intentEx vhbaA).1 :=
  ⟨rfl, Or.inl rfl, (c7_device_alias_pure intentEx vhbaA).1,
   (c7_device_alias_pure intentEx vhbaA).2.2 rfl (Or.inl rfl)⟩

/-- C1: in a per-adapter iteration of `configure_intersight_mds_zones`,
a record with a recognized fabric tag has every one of its calls
dispatched to the client of its own fabric, and its zone-member call
carries exactly its own fabric's zone name and VSAN id (and the computed
device alias exactly when the flag is set); nothing is ever issued on
the other fabric's client or with the other fabric's parameters. -/
theorem c1_fabric_dispatch (intent : ZoningIntent) (v : Vhba)
    (h : v.vhba_fabric = "A" ∨ v.vhba_fabric = "B") :
    ∀ e ∈ (perAdapterEvents intent v).1,
      e.fab = (if v.vhba_fabric = "A" then Fabric.A else Fabric.B) ∧
      (e.call = MdsCall.add_device_alias
          (device_alias_of intent.server_profile_name v.vhba_fabric v.vhba_name)
          v.vhba_wwpn ∨
       e.call = MdsCall.configure_zone_and_add_member
          (if v.vhba_fabric = "A" then intent.zone_name_a else intent.zone_name_b)
          (if v.vhba_fabric = "A" then intent.vsan_id_a else intent.vsan_id_b)
          (some v.vhba_wwpn)
          (if intent.flag_configure_device_aliases then
             some (device_alias_of intent.server_profile_name v.vhba_fabric v.vhba_name)
           else none)) := by
  intro e he
  rcases h with h | h <;>
    cases hf : intent.flag_configure_device_aliases <;>
      simp [perAdapterEvents, memberDispatch, hf, h] at he <;>
    rcases he with rfl | rfl <;> simp [h, hf]

/-- C1 witness: the spec scenario record on fabric A. -/
theorem c1_fabric_dispatch_witness :
    (vhbaA.vhba_fabric = "A" ∨ vhbaA.vhba_fabric = "B") ∧
    ∀ e ∈ (perAdapterEvents intentEx vhbaA).1,
      e.fab = (if vhbaA.vhba_fabric = "A" then Fabric.A else Fabric.B) ∧
      (e.call = MdsCall.add_device_alias
          (device_alias_of intentEx.server_profile_name vhbaA.vhba_fabric vhbaA.vhba_name)
          vhbaA.vhba_wwpn ∨
       e.call = MdsCall.configure_zone_and_add_member
          (if vhbaA.vhba_fabric = "A" then intentEx.zone_name_a else intentEx.zone_name_b)
          (if vhbaA.vhba_fabric = "A" then intentEx.vsan_id_a else intentEx.vsan_id_b)
          (some vhbaA.vhba_wwpn)
          (if intentEx.flag_configure_device_aliases then
             some (device_alias_of intentEx.server_profile_name vhbaA.vhba_fabric vhbaA.vhba_name)
           else none)) :=
  ⟨Or.inl rfl, c1_fabric_dispatch intentEx vhbaA (Or.inl rfl)⟩

/-- C10: an adapter record stores its data under the `vhba_*` keys only,
so the unknown-fabric error branch, whose `logger.error` arguments read
`vhba["fabric"]` and `vhba["name"]`, raises `KeyError("fabric")` instead
of reaching the intended logged-error-and-`sys.exit(1)` path; the loop
still halts there, emitting no command for this or any later record. -/
theorem c10_unknown_fabric_branch_keyerror (intent : ZoningIntent) (v : Vhba)
    (rest : List Vhba)
    (hA : v.vhba_fabric ≠ "A") (hB : v.vhba_fabric ≠ "B") :
    v.get "fabric" = none ∧ v.get "name" = none ∧
    unknown_fabric_halt v = Halt.keyError "fabric" ∧
    runAdapterLoop intent (v :: rest) = ([], some (Halt.keyError "fabric")) := by
  have hget : v.get "fabric" = none := by
    unfold Vhba.get
    simp
  have hname : v.get "name" = none := by
    unfold Vhba.get
    simp
  have hhalt : unknown_fabric_halt v = Halt.keyError "fabric" := by
    unfold unknown_fabric_halt
    rw [hget]
  refine ⟨hget, hname, hhalt, ?_⟩
  cases hf : intent.flag_configure_device_aliases <;>
    simp [runAdapterLoop, perAdapterEvents, memberDispatch, hf, hA, hB, hhalt]

/-- C10 witness: the fabric-C record halts the loop with
`KeyError("fabric")` before the fabric B record is processed. -/
theorem c10_unknown_fabric_branch_keyerror_witness :
    vhbaC.vhba_fabric ≠ "A" ∧ vhbaC.vhba_fabric ≠ "B" ∧
    (vhbaC.get "fabric" = none ∧ vhbaC.get "name" = none ∧
     unknown_fabric_halt vhbaC = Halt.keyError "fabric" ∧
     runAdapterLoop intentEx (vhbaC :: [vhbaB]) =
       ([], some (Halt.keyError "fabric"))) :=
  ⟨by decide, by decide,
   c10_unknown_fabric_branch_keyerror intentEx vhbaC [vhbaB]
     (by decide) (by decide)⟩

/-- C5 (evaluated at the failing input): a list whose second record has
fabric tag `C` makes the full workflow halt at that record — but through
the uncaught `KeyError("fabric")` of the faulty error branch, not the
designed logged-error-and-`sys.exit(1)` path — after emitting exactly
the two commands of the first record and nothing for the third. -/
theorem c5_unknown_fabric_abort_run :
    configure_intersight_mds_zones intentEx [vhbaA, vhbaC, vhbaB] =
      ([⟨Fabric.A, MdsCall.add_device_alias "srv1-A-vHBA0" "20:00:00:00:00:00:00:01"⟩,
        ⟨Fabric.A, MdsCall.configure_zone_and_add_member "zoneA" "10"
           (some "20:00:00:00:00:00:00:01") (some "srv1-A-vHBA0")⟩],
       some (Halt.keyError "fabric")) := by
  decide

/-- C4: whenever the add-zones or activate flag is set while a zoneset
name is missing, the whole run halts abnormally and its trace contains
no `add_zone_to_zoneset` and no `activate_zoneset` call on either
fabric. -/
theorem c4_zoneset_names_guard (intent : ZoningIntent) (vhbas : List Vhba)
    (hflag : intent.flag_add_zones_to_zonesets = true ∨
      intent.flag_activate_zonesets = true)
    (hname : intent.zoneset_name_a = none ∨ intent.zoneset_name_b = none) :
    (configure_intersight_mds_zones intent vhbas).2.isSome = true ∧
    ∀ e ∈ (configure_intersight_mds_zones intent vhbas).1,
      isAddZoneCall e = false ∧ isActivateCall e = false := by
  have hnames : (intent.zoneset_name_a.isNone || intent.zoneset_name_b.isNone) = true := by
    rcases hname with h | h <;> simp [h]
  by_cases h1 : (runAdapterLoop intent vhbas).2.isSome
  · refine ⟨by simp [configure_intersight_mds_zones, h1], ?_⟩
    intro e he
    simp only [configure_intersight_mds_zones, h1, if_true] at he
    exact runLoop_no_stage_calls intent vhbas e he
  · by_cases ha : intent.flag_add_zones_to_zonesets = true
    · have hs2 : add_zones_stage intent = ([], some (Halt.exited 1)) := by
        simp [add_zones_stage, ha, hnames]
      refine ⟨by simp [configure_intersight_mds_zones, h1, hs2], ?_⟩
      intro e he
      simp only [configure_intersight_mds_zones, h1, hs2, Bool.false_eq_true,
        if_false, Option.isSome_some, if_true, List.append_nil] at he
      exact runLoop_no_stage_calls intent vhbas e he
    · have hact : intent.flag_activate_zonesets = true := by
        rcases hflag with h | h
        · exact absurd h ha
        · exact h
      have hs2 : add_zones_stage intent = ([], none) := by
        simp [add_zones_stage, ha]
      have hs3 : activate_stage intent = ([], some (Halt.exited 1)) := by
        simp [activate_stage, hact, hnames]
      refine ⟨by simp [configure_intersight_mds_zones, h1, hs2, hs3], ?_⟩
      intro e he
      simp only [configure_intersight_mds_zones, h1, hs2, hs3, Bool.false_eq_true,
        if_false, Option.isSome_none, Option.isSome_some, if_true,
        List.append_nil] at he
      exact runLoop_no_stage_calls intent vhbas e he

/-- C4 witness: both flags set with both zoneset names missing; the run
halts and no zoneset-stage command appears. -/
theorem c4_zoneset_names_guard_witness :
    (intentNoZonesets.flag_add_zones_to_zonesets = true ∨
      intentNoZonesets.flag_activate_zonesets = true) ∧
    (intentNoZonesets.zoneset_name_a = none ∨
      intentNoZonesets.zoneset_name_b = none) ∧
    ((configure_intersight_mds_zones intentNoZonesets [vhbaA]).2.isSome = true ∧
     ∀ e ∈ (configure_intersight_mds_zones intentNoZonesets [vhbaA]).1,
       isAddZoneCall e = false ∧ isActivateCall e = false) :=
  ⟨Or.inl rfl, Or.inl rfl,
   c4_zoneset_names_guard intentNoZonesets [vhbaA] (Or.inl rfl) (Or.inl rfl)⟩

/-- C6: with the alias flag cleared, the full-workflow trace contains no
alias-creation call and every zone-member call carries no alias, so the
command it sends (when it sends one) is the `member pwwn` form with the
raw WWPN; with the flag set, every zone-member call carries a device
alias and sends the `member device-alias` form, even though the WWPN is
passed alongside. -/
theorem c6_alias_flag_behavior (intent : ZoningIntent) (vhbas : List Vhba) :
    (intent.flag_configure_device_aliases = false →
      ∀ e ∈ (configure_intersight_mds_zones intent vhbas).1,
        isAliasCall e = false ∧
        ∀ zn vs w d, e.call = MdsCall.configure_zone_and_add_member zn vs w d →
          d = none ∧
          ∀ s, eventCommand e.call = Except.ok s →
            ∃ wp, w = some wp ∧ s = member_pwwn_cmd zn vs wp) ∧
    (intent.flag_configure_device_aliases = true →
      ∀ e ∈ (configure_intersight_mds_zones intent vhbas).1,
        ∀ zn vs w d, e.call = MdsCall.configure_zone_and_add_member zn vs w d →
          ∃ al, d = some al ∧
            eventCommand e.call = Except.ok (member_device_alias_cmd zn vs al)) := by
  constructor
  · intro hf e he
    rcases mem_run_cases intent vhbas e he with hl | hs | hs
    · obtain ⟨v, _, hev⟩ := mem_runLoop intent vhbas e hl
      obtain ⟨zn0, vs0, hc0⟩ := perAdapter_member_flag_false intent v hf e hev
      refine ⟨by simp [isAliasCall, hc0], ?_⟩
      intro zn vs w d hc
      rw [hc0] at hc
      simp only [MdsCall.configure_zone_and_add_member.injEq] at hc
      obtain ⟨hzn, hvs, hw, hd⟩ := hc
      refine ⟨hd.symm, ?_⟩
      intro s hs
      rw [hc0] at hs
      simp only [eventCommand] at hs
      exact ⟨v.vhba_wwpn, hw.symm,
        by rw [← hzn, ← hvs]; exact render_member_pwwn zn0 vs0 v.vhba_wwpn s hs⟩
    · obtain ⟨zn0, zs0, vs0, hc0⟩ := add_zones_stage_shape intent e hs
      refine ⟨by simp [isAliasCall, hc0], ?_⟩
      intro zn vs w d hc
      rw [hc0] at hc
      cases hc
    · obtain ⟨zs0, vs0, hc0⟩ := activate_stage_shape intent e hs
      refine ⟨by simp [isAliasCall, hc0], ?_⟩
      intro zn vs w d hc
      rw [hc0] at hc
      cases hc
  · intro hf e he
    rcases mem_run_cases intent vhbas e he with hl | hs | hs
    · intro zn vs w d hc
      obtain ⟨v, _, hev⟩ := mem_runLoop intent vhbas e hl
      obtain ⟨hw, hd⟩ := perAdapter_member_flag_true intent v hf e hev zn vs w d hc
      refine ⟨device_alias_of intent.server_profile_name v.vhba_fabric v.vhba_name,
        hd, ?_⟩
      rw [hc]
      simp only [eventCommand]
      rw [hw, hd]
      exact render_member_alias zn vs v.vhba_wwpn _
        (device_alias_of_ne_empty _ _ _)
    · obtain ⟨zn0, zs0, vs0, hc0⟩ := add_zones_stage_shape intent e hs
      intro zn vs w d hc
      rw [hc0] at hc
      cases hc
    · obtain ⟨zs0, vs0, hc0⟩ := activate_stage_shape intent e hs
      intro zn vs w d hc
      rw [hc0] at hc
      cases hc

/-- C6 witness: the flag-cleared run and the flag-set run on the
scenario record. -/
theorem c6_alias_flag_behavior_witness :
    (intentNoAliases.flag_configure_device_aliases = false ∧
     ∀ e ∈ (configure_intersight_mds_zones intentNoAliases [vhbaA]).1,
       isAliasCall e = false ∧
       ∀ zn vs w d, e.call = MdsCall.configure_zone_and_add_member zn vs w d →
         d = none ∧
         ∀ s, eventCommand e.call = Except.ok s →
           ∃ wp, w = some wp ∧ s = member_pwwn_cmd zn vs wp) ∧
    (intentEx.flag_configure_device_aliases = true ∧
     ∀ e ∈ (configure_intersight_mds_zones intentEx [vhbaA]).1,
       ∀ zn vs w d, e.call = MdsCall.configure_zone_and_add_member zn vs w d →
         ∃ al, d = some al ∧
           eventCommand e.call = Except.ok (member_device_alias_cmd zn vs al)) :=
  ⟨⟨rfl, (c6_alias_flag_behavior intentNoAliases [vhbaA]).1 rfl⟩,
   ⟨rfl, (c6_alias_flag_behavior intentEx [vhbaA]).2 rfl⟩⟩

/-- C8: in the full workflow the add-zone calls, in trace order, hit
fabric A before fabric B, and so do the activation calls; the standalone
operations likewise dispatch to fabric A first, then fabric B. -/
theorem c8_fabric_a_before_b (intent : ZoningIntent) (vhbas : List Vhba)
    (zoneset_name_a vsan_id_a zoneset_name_b vsan_id_b
      zone_name_a zone_name_b : String) :
    fabricsInOrder
      (((configure_intersight_mds_zones intent vhbas).1.filter
          isAddZoneCall).map Event.fab) ∧
    fabricsInOrder
      (((configure_intersight_mds_zones intent vhbas).1.filter
          isActivateCall).map Event.fab) ∧
    ((activate_zonesets zoneset_name_a vsan_id_a zoneset_name_b
        vsan_id_b).filter isActivateCall).map Event.fab = [Fabric.A, Fabric.B] ∧
    ((add_zones_to_zonesets zoneset_name_a zone_name_a vsan_id_a
        zoneset_name_b zone_name_b vsan_id_b).filter
          isAddZoneCall).map Event.fab = [Fabric.A, Fabric.B] := by
  refine ⟨?_, ?_, rfl, rfl⟩
  · by_cases h1 : (runAdapterLoop intent vhbas).2.isSome
    · have heq : (configure_intersight_mds_zones intent vhbas).1 =
          (runAdapterLoop intent vhbas).1 := by
        simp [configure_intersight_mds_zones, h1]
      rw [heq, (runLoop_filter_stage intent vhbas).1]
      exact Or.inl rfl
    · by_cases h2 : (add_zones_stage intent).2.isSome
      · have heq : (configure_intersight_mds_zones intent vhbas).1 =
            (runAdapterLoop intent vhbas).1 ++ (add_zones_stage intent).1 := by
          simp [configure_intersight_mds_zones, h1, h2]
        rw [heq, List.filter_append, (runLoop_filter_stage intent vhbas).1,
          List.nil_append]
        exact add_zones_stage_order intent
      · have heq : (configure_intersight_mds_zones intent vhbas).1 =
            (runAdapterLoop intent vhbas).1 ++ (add_zones_stage intent).1 ++
              (activate_stage intent).1 := by
          simp [configure_intersight_mds_zones, h1, h2]
        rw [heq, List.filter_append, List.filter_append,
          (runLoop_filter_stage intent vhbas).1, List.nil_append,
          activate_stage_filter_addzone, List.append_nil]
        exact add_zones_stage_order intent
  · by_cases h1 : (runAdapterLoop intent vhbas).2.isSome
    · have heq : (configure_intersight_mds_zones intent vhbas).1 =
          (runAdapterLoop intent vhbas).1 := by
        simp [configure_intersight_mds_zones, h1]
      rw [heq, (runLoop_filter_stage intent vhbas).2]
      exact Or.inl rfl
    · by_cases h2 : (add_zones_stage intent).2.isSome
      · have heq : (configure_intersight_mds_zones intent vhbas).1 =
            (runAdapterLoop intent vhbas).1 ++ (add_zones_stage intent).1 := by
          simp [configure_intersight_mds_zones, h1, h2]
        rw [heq, List.filter_append, (runLoop_filter_stage intent vhbas).2,
          List.nil_append, add_zones_stage_filter_activate]
        exact Or.inl rfl
      · have heq : (configure_intersight_mds_zones intent vhbas).1 =
            (runAdapterLoop intent vhbas).1 ++ (add_zones_stage intent).1 ++
              (activate_stage intent).1 := by
          simp [configure_intersight_mds_zones, h1, h2]
        rw [heq, List.filter_append, List.filter_append,
          (runLoop_filter_stage intent vhbas).2, List.nil_append,
          add_zones_stage_filter_activate, List.nil_append]
        exact activate_stage_order intent

end ZoneBridge
